import Mathlib

/-!
# Hopla firmware: power and motion state coordinator

A shallow embedding of the firmware sources

* `config_manager.c` (runtime configuration store),
* `power_mgmt.c` (power states and the active-timeout work item),
* `ble_service.c` (configuration characteristic, connection callbacks),
* `main.c` (motion trigger handler and the sensor thread loop body).

The C file-scope variables of the four translation units are the fields of one
record `State`, and every C function is a function on `State`.  Calls into the
sensor and radio collaborators are recorded, in call order, in `State.trace`.
Unsigned machine integers are natural numbers, signed ones are integers; the
places where C narrows or may overflow are written out explicitly.
-/

namespace Hopla

/-! ## Constants taken from the headers -/

/-- Value of `EINVAL` in the C library's `errno.h`. -/
abbrev EINVAL : Int := 22

/-- Value of `BT_ATT_ERR_INVALID_OFFSET`; `BT_GATT_ERR(x)` is `-(x)`. -/
abbrev BT_ATT_ERR_INVALID_OFFSET : Int := 7

/-- `STREAM_MODE_RAW` of `ble_service.h`. -/
abbrev STREAM_MODE_RAW : Nat := 0
/-- `STREAM_MODE_FILTERED` of `ble_service.h`. -/
abbrev STREAM_MODE_FILTERED : Nat := 1
/-- `STREAM_MODE_EVENTS` of `ble_service.h`. -/
abbrev STREAM_MODE_EVENTS : Nat := 2

/-- `POWER_STATE_IDLE` of `enum power_state`; a C enum is an integer, so a
caller can pass any value, also one that names no enumerator. -/
abbrev POWER_STATE_IDLE : Nat := 0
/-- `POWER_STATE_ACTIVE` of `enum power_state`. -/
abbrev POWER_STATE_ACTIVE : Nat := 1
/-- `POWER_STATE_CONNECTED_IDLE` of `enum power_state`. -/
abbrev POWER_STATE_CONNECTED_IDLE : Nat := 2
/-- `POWER_STATE_CONNECTED_ACTIVE` of `enum power_state`. -/
abbrev POWER_STATE_CONNECTED_ACTIVE : Nat := 3

/-! ## Data model -/

/-- The record `struct fm_config` of `ble_service.h` (12 bytes, packed).
The `uint16_t` and `uint8_t` fields are natural numbers. -/
structure fm_config where
  notify_rate_hz : Nat
  active_timeout_ms : Nat
  accel_range : Nat
  motion_threshold : Nat
  adv_interval_idle : Nat
  adv_interval_active : Nat
  stream_mode : Nat
  reserved : Nat
  deriving DecidableEq, Repr

/-- The record `struct accel_data`: three `int16_t` fields. -/
structure accel_data where
  x : Int
  y : Int
  z : Int
  deriving DecidableEq, Repr

/-- Calls that leave the modelled translation units, towards the radio
(`ble_service_*_advertising`, `bt_gatt_notify`) and the accelerometer
wrapper (`accel_sensor_*`). -/
inductive Effect where
  | stop_advertising
  | start_advertising (interval_ms : Nat)
  | enable_wake_on_motion (enable : Bool)
  | set_range (range : Nat)
  | set_odr (rate_hz : Nat)
  | set_motion_threshold (threshold : Nat)
  | gatt_notify (data : accel_data)
  deriving DecidableEq, Repr

/-- All file-scope variables of the modelled translation units.

* `cm_config`: `current_config` of `config_manager.c`;
* `ble_config`: `current_config` of `ble_service.c`, kept as its 12 bytes
  because `write_config` copies into it bytewise;
* `stream_mode`, `current_conn`: of `ble_service.c` (`current_conn` is kept
  as "is there a connection reference");
* `current_state`, `adv_interval`, `active_timeout_work`: of `power_mgmt.c`;
  the delayable work item is `some t` while it is scheduled (with delay `t`)
  and `none` otherwise;
* `trace`: the collaborator calls made so far, oldest first. -/
structure State where
  cm_config : fm_config
  ble_config : List Nat
  stream_mode : Nat
  current_conn : Bool
  current_state : Nat
  adv_interval : Nat
  active_timeout_work : Option Nat
  trace : List Effect
  deriving DecidableEq, Repr

/-! ## Wire layout of `struct fm_config` -/

/-- A little-endian `uint16_t` from its two bytes. -/
def le16 (lo hi : Nat) : Nat := lo + 256 * hi

/-- Reading the packed 12-byte record as a `struct fm_config` on the
little-endian target. -/
def fm_config_of_bytes (b : List Nat) : fm_config :=
  { notify_rate_hz := le16 (b.getD 0 0) (b.getD 1 0)
    active_timeout_ms := le16 (b.getD 2 0) (b.getD 3 0)
    accel_range := b.getD 4 0
    motion_threshold := b.getD 5 0
    adv_interval_idle := le16 (b.getD 6 0) (b.getD 7 0)
    adv_interval_active := le16 (b.getD 8 0) (b.getD 9 0)
    stream_mode := b.getD 10 0
    reserved := b.getD 11 0 }

/-- The 12 bytes of a `struct fm_config` on the little-endian target. -/
def fm_config_to_bytes (c : fm_config) : List Nat :=
  [c.notify_rate_hz % 256, c.notify_rate_hz / 256 % 256,
   c.active_timeout_ms % 256, c.active_timeout_ms / 256 % 256,
   c.accel_range % 256, c.motion_threshold % 256,
   c.adv_interval_idle % 256, c.adv_interval_idle / 256 % 256,
   c.adv_interval_active % 256, c.adv_interval_active / 256 % 256,
   c.stream_mode % 256, c.reserved % 256]

/-- `sizeof(current_config)`: the packed record has 12 bytes. -/
abbrev sizeof_fm_config : Nat := 12

/-- `memcpy(dst + offset, src, src.length)` on a byte buffer. -/
def memcpy_at (dst : List Nat) (offset : Nat) (src : List Nat) : List Nat :=
  dst.take offset ++ src ++ dst.drop (offset + src.length)

/-! ## `ble_service.c`: radio facade and stream mode -/

/-- `ble_service_stop_advertising`: the call is recorded. -/
def ble_service_stop_advertising (s : State) : State :=
  { s with trace := s.trace ++ [Effect.stop_advertising] }

/-- `ble_service_start_advertising`: the call and its interval are recorded. -/
def ble_service_start_advertising (s : State) (interval_ms : Nat) : State :=
  { s with trace := s.trace ++ [Effect.start_advertising interval_ms] }

/-- `ble_service_notify_xyz`: without a connection nothing is sent. -/
def ble_service_notify_xyz (s : State) (data : accel_data) : State :=
  if s.current_conn then { s with trace := s.trace ++ [Effect.gatt_notify data] } else s

/-- `ble_service_get_stream_mode`. -/
def ble_service_get_stream_mode (s : State) : Nat := s.stream_mode

/-- `ble_service_set_stream_mode`: values above `STREAM_MODE_EVENTS` are
refused with `-EINVAL`. -/
def ble_service_set_stream_mode (s : State) (mode : Nat) : State × Int :=
  if mode > STREAM_MODE_EVENTS then (s, -EINVAL)
  else ({ s with stream_mode := mode }, 0)

/-- `ble_service_get_config`: a copy of the 12-byte record of `ble_service.c`,
read as a `struct fm_config`. -/
def ble_service_get_config (s : State) : fm_config := fm_config_of_bytes s.ble_config

/-! ## `accel_sensor.c`: sensor facade -/

/-- `accel_sensor_enable_wake_on_motion`: the call is recorded. -/
def accel_sensor_enable_wake_on_motion (s : State) (enable : Bool) : State :=
  { s with trace := s.trace ++ [Effect.enable_wake_on_motion enable] }

/-- `accel_sensor_set_range`: the call is recorded. -/
def accel_sensor_set_range (s : State) (range : Nat) : State :=
  { s with trace := s.trace ++ [Effect.set_range range] }

/-- `accel_sensor_set_odr`: the call is recorded. -/
def accel_sensor_set_odr (s : State) (rate_hz : Nat) : State :=
  { s with trace := s.trace ++ [Effect.set_odr rate_hz] }

/-- `accel_sensor_set_motion_threshold`: the call is recorded. -/
def accel_sensor_set_motion_threshold (s : State) (threshold : Nat) : State :=
  { s with trace := s.trace ++ [Effect.set_motion_threshold threshold] }

/-! ## `power_mgmt.c` -/

/-- `power_mgmt_set_state`: the requested value is stored first, then the
`switch` runs the entry actions of the four known states and returns
`-EINVAL` in its `default` branch. -/
def power_mgmt_set_state (s : State) (state : Nat) : State × Int :=
  let s1 := { s with current_state := state }
  if state = POWER_STATE_IDLE then
    let s2 := ble_service_stop_advertising s1
    let s3 := ble_service_start_advertising s2 s2.adv_interval
    (accel_sensor_enable_wake_on_motion s3 true, 0)
  else if state = POWER_STATE_ACTIVE then
    let s2 := ble_service_stop_advertising s1
    let s3 := ble_service_start_advertising s2 100
    (accel_sensor_enable_wake_on_motion s3 false, 0)
  else if state = POWER_STATE_CONNECTED_IDLE then
    let s2 := ble_service_stop_advertising s1
    (accel_sensor_enable_wake_on_motion s2 true, 0)
  else if state = POWER_STATE_CONNECTED_ACTIVE then
    let s2 := ble_service_stop_advertising s1
    (accel_sensor_enable_wake_on_motion s2 false, 0)
  else
    (s1, -EINVAL)

/-- `power_mgmt_get_state`. -/
def power_mgmt_get_state (s : State) : Nat := s.current_state

/-- `power_mgmt_update_advertising`: stores the interval and restarts
advertising only when the current state is `POWER_STATE_IDLE`. -/
def power_mgmt_update_advertising (s : State) (interval_ms : Nat) : State :=
  let s1 := { s with adv_interval := interval_ms }
  if s1.current_state = POWER_STATE_IDLE then
    let s2 := ble_service_stop_advertising s1
    ble_service_start_advertising s2 s2.adv_interval
  else s1

/-- `power_mgmt_schedule_active_timeout`: `k_work_cancel_delayable` followed
by `k_work_schedule`, after which exactly the new deadline is scheduled. -/
def power_mgmt_schedule_active_timeout (s : State) (timeout_ms : Nat) : State :=
  let s1 := { s with active_timeout_work := none }
  { s1 with active_timeout_work := some timeout_ms }

/-- `active_timeout_handler`, the function of the delayable work item. -/
def active_timeout_handler (s : State) : State :=
  (power_mgmt_set_state s POWER_STATE_IDLE).1

/-! ## `config_manager.c` -/

/-- `config_manager_get`: a `NULL` out-pointer is answered with `-EINVAL`;
otherwise the stored record is copied out whole and 0 is returned. -/
def config_manager_get (s : State) (config_is_null : Bool) : Int × Option fm_config :=
  if config_is_null then (-EINVAL, none) else (0, some s.cm_config)

/-- `config_manager_set`: `none` is the `NULL` argument.  Three range checks,
then the candidate is copied over the stored record. -/
def config_manager_set (s : State) (config : Option fm_config) : State × Int :=
  match config with
  | none => (s, -EINVAL)
  | some c =>
    if c.notify_rate_hz < 1 ∨ c.notify_rate_hz > 100 then (s, -EINVAL)
    else if c.accel_range > 3 then (s, -EINVAL)
    else if c.stream_mode > STREAM_MODE_EVENTS then (s, -EINVAL)
    else ({ s with cm_config := c }, 0)

/-- `config_manager_apply`: pushes the stored record to the accelerometer,
the stream mode gate and the advertising interval, in this order. -/
def config_manager_apply (s : State) : State :=
  let s1 := accel_sensor_set_range s s.cm_config.accel_range
  let s2 := accel_sensor_set_odr s1 s1.cm_config.notify_rate_hz
  let s3 := accel_sensor_set_motion_threshold s2 s2.cm_config.motion_threshold
  let s4 := (ble_service_set_stream_mode s3 s3.cm_config.stream_mode).1
  power_mgmt_update_advertising s4 s4.cm_config.adv_interval_idle

/-- The default record written by `config_manager_init`. -/
def default_config : fm_config :=
  { notify_rate_hz := 50
    active_timeout_ms := 5000
    accel_range := 0
    motion_threshold := 50
    adv_interval_idle := 1000
    adv_interval_active := 100
    stream_mode := STREAM_MODE_FILTERED
    reserved := 0 }

/-- `config_manager_init`: stores the defaults and applies them. -/
def config_manager_init (s : State) : State × Int :=
  (config_manager_apply { s with cm_config := default_config }, 0)

/-! ## `ble_service.c`: configuration characteristic and connection callbacks -/

/-- `bt_gatt_attr_read` of the Bluetooth host: an offset beyond the value is
refused, otherwise at most `len` bytes starting at `offset` are copied out and
their number is returned. -/
def bt_gatt_attr_read (len offset : Nat) (value : List Nat) : Int × List Nat :=
  if offset > value.length then (-BT_ATT_ERR_INVALID_OFFSET, [])
  else
    let n := min len (value.length - offset)
    ((n : Int), (value.drop offset).take n)

/-- `read_config`: the read callback of the configuration characteristic,
serving the record of `ble_service.c`. -/
def read_config (s : State) (len offset : Nat) : Int × List Nat :=
  bt_gatt_attr_read len offset s.ble_config

/-- `write_config`: the write callback of the configuration characteristic.
The pair `buf`, `len` of the C signature is the list `buf` with `len` its
length.  A write reaching beyond the record is refused; otherwise the bytes
are copied into the record of `ble_service.c`, and when the write ends at the
last byte the record is handed to `config_manager_set` (whose result is
dropped) and `config_manager_apply` runs.  The result is `len`. -/
def write_config (s : State) (buf : List Nat) (offset : Nat) : State × Int :=
  let len := buf.length
  if offset + len > sizeof_fm_config then (s, -BT_ATT_ERR_INVALID_OFFSET)
  else
    let s1 := { s with ble_config := memcpy_at s.ble_config offset buf }
    if offset + len = sizeof_fm_config then
      let s2 := (config_manager_set s1 (some (ble_service_get_config s1))).1
      (config_manager_apply s2, (len : Int))
    else (s1, (len : Int))

/-- `connected`: a failed connection attempt (`err` not 0) changes nothing;
otherwise the connection is kept and `POWER_STATE_CONNECTED_IDLE` requested. -/
def connected (s : State) (err : Nat) : State :=
  if err ≠ 0 then s
  else
    let s1 := { s with current_conn := true }
    (power_mgmt_set_state s1 POWER_STATE_CONNECTED_IDLE).1

/-- `disconnected`: drops the connection and requests `POWER_STATE_IDLE`. -/
def disconnected (s : State) (_reason : Nat) : State :=
  let s1 := { s with current_conn := false }
  (power_mgmt_set_state s1 POWER_STATE_IDLE).1

/-! ## `main.c` -/

/-- `motion_trigger_handler`: requests `POWER_STATE_ACTIVE`. -/
def motion_trigger_handler (s : State) : State :=
  (power_mgmt_set_state s POWER_STATE_ACTIVE).1

/-- Addition of two C `int` values (32 bits on the target); an overflowing
signed addition has no defined result. -/
def int_add (a b : Int) : Option Int :=
  let r := a + b
  if -2147483648 ≤ r ∧ r ≤ 2147483647 then some r else none

/-- Conversion of an `int` to `int16_t`, reducing modulo 2^16 into
[-32768, 32767] as the target compiler does. -/
def to_int16 (v : Int) : Int := (v + 32768) % 65536 - 32768

/-- The value of the local `int16_t magnitude` of `sensor_thread`:
`(x*x + y*y + z*z) / 1000` computed in `int` and narrowed to `int16_t`. -/
def sensor_thread_magnitude (data : accel_data) : Option Int :=
  match int_add (data.x * data.x) (data.y * data.y) with
  | none => none
  | some xy =>
    match int_add xy (data.z * data.z) with
    | none => none
    | some xyz => some (to_int16 (Int.tdiv xyz 1000))

/-- The value of the local `period_ms` of `sensor_thread`:
`1000 / notify_rate_hz`, raised to 10 when smaller.  Division by zero has no
defined result. -/
def sensor_thread_period_ms (notify_rate_hz : Nat) : Option Nat :=
  if notify_rate_hz = 0 then none
  else
    let period_ms := 1000 / notify_rate_hz
    some (if period_ms < 10 then 10 else period_ms)

/-- One pass through the body of the `while (1)` loop of `sensor_thread`.
`reading` is the outcome of `accel_sensor_read` (`none` for an error).  The
result is the state at the `k_sleep` call together with the period slept,
or `none` when the pass runs into an operation without defined result. -/
def sensor_thread_iter (s : State) (reading : Option accel_data) : Option (State × Nat) :=
  match (config_manager_get s false).2 with
  | none => none
  | some config =>
    match sensor_thread_period_ms config.notify_rate_hz with
    | none => none
    | some period_ms =>
      match reading with
      | none => some (s, period_ms)
      | some data =>
        let stream_mode := ble_service_get_stream_mode s
        let s1 :=
          if stream_mode = STREAM_MODE_RAW ∨ stream_mode = STREAM_MODE_FILTERED then
            ble_service_notify_xyz s data
          else if stream_mode = STREAM_MODE_EVENTS then
            ble_service_notify_xyz s data
          else s
        let state := power_mgmt_get_state s1
        if state = POWER_STATE_CONNECTED_IDLE then
          match sensor_thread_magnitude data with
          | none => none
          | some magnitude =>
            if magnitude > 100 then
              let s2 := (power_mgmt_set_state s1 POWER_STATE_CONNECTED_ACTIVE).1
              some (power_mgmt_schedule_active_timeout s2 config.active_timeout_ms, period_ms)
            else some (s1, period_ms)
        else some (s1, period_ms)

/-- `power_mgmt_init`: `k_work_init_delayable` leaves the work item idle. -/
def power_mgmt_init (s : State) : State × Int :=
  ({ s with active_timeout_work := none }, 0)

/-- The values of the file-scope variables before `main` runs: the static
initialisers of `ble_service.c` and `power_mgmt.c`, zeroes elsewhere. -/
def static_init : State :=
  { cm_config := ⟨0, 0, 0, 0, 0, 0, 0, 0⟩
    ble_config := fm_config_to_bytes default_config
    stream_mode := STREAM_MODE_FILTERED
    current_conn := false
    current_state := POWER_STATE_IDLE
    adv_interval := 1000
    active_timeout_work := none
    trace := [] }

/-- `main` with every initialisation succeeding: the configuration manager
and the power management are initialised and advertising starts at the idle
interval of the stored configuration. -/
def main (s : State) : State :=
  let s1 := (config_manager_init s).1
  let s2 := (power_mgmt_init s1).1
  match (config_manager_get s2 false).2 with
  | none => s2
  | some config => ble_service_start_advertising s2 config.adv_interval_idle

/-- The state in which the firmware is ready: `main` has returned. -/
def boot : State := main static_init

/-! ## Events -/

/-- The asynchronous inputs of the coordinator, each handled to completion. -/
inductive Event where
  | connected (err : Nat)
  | disconnected (reason : Nat)
  | motion
  | sensor_tick (reading : Option accel_data)
  | timeout_expired
  | config_write (buf : List Nat) (offset : Nat)
  deriving DecidableEq, Repr

/-- Expiry of the delayable work item: a scheduled item becomes idle and its
handler runs; an item that is not scheduled does not expire. -/
def active_timeout_fire (s : State) : State :=
  match s.active_timeout_work with
  | none => s
  | some _ => active_timeout_handler { s with active_timeout_work := none }

/-- Handling of one event by the function the firmware registers for it. -/
def step (s : State) : Event → Option State
  | Event.connected err => some (connected s err)
  | Event.disconnected reason => some (disconnected s reason)
  | Event.motion => some (motion_trigger_handler s)
  | Event.sensor_tick reading => (sensor_thread_iter s reading).map Prod.fst
  | Event.timeout_expired => some (active_timeout_fire s)
  | Event.config_write buf offset => some (write_config s buf offset).1

/-- Handling of a sequence of events, oldest first. -/
def run (s : State) : List Event → Option State
  | [] => some s
  | e :: es =>
    match step s e with
    | none => none
    | some s1 => run s1 es

/-! ## Scenarios used in the statements below -/

/-- The state after a peer has connected to the freshly started firmware:
power state `POWER_STATE_CONNECTED_IDLE`, no timeout scheduled. -/
def connected_idle_state : State := connected boot 0

/-- The state after the sensor thread has promoted `connected_idle_state` on
the sample (400, 400, 0): power state `POWER_STATE_CONNECTED_ACTIVE`, the
active timeout scheduled with the default 5000 ms. -/
def connected_active_state : State :=
  power_mgmt_schedule_active_timeout
    (power_mgmt_set_state (ble_service_notify_xyz connected_idle_state ⟨400, 400, 0⟩)
      POWER_STATE_CONNECTED_ACTIVE).1 5000

/-- A 12-byte record whose `notify_rate_hz` is 0 and whose other fields
are the defaults. -/
def invalid_record : List Nat := [0, 0, 136, 19, 0, 50, 232, 3, 100, 0, 1, 0]

/-- The relation between power state and work item that the firmware keeps:
in `POWER_STATE_CONNECTED_ACTIVE` the active timeout is scheduled. -/
def timeout_invariant (s : State) : Prop :=
  s.current_state = POWER_STATE_CONNECTED_ACTIVE → s.active_timeout_work.isSome = true

/-- Recognises the call `accel_sensor_set_odr`, which only
`config_manager_apply` makes, once per run. -/
def Effect.is_set_odr : Effect → Bool
  | Effect.set_odr _ => true
  | _ => false

/-- Number of runs of `config_manager_apply` recorded in a trace. -/
def apply_count (t : List Effect) : Nat := t.countP Effect.is_set_odr

/-- A sequence of writes to the configuration characteristic, each given by
its bytes and its offset, handled oldest first by `write_config`. -/
def config_writes (s : State) : List (List Nat × Nat) → State
  | [] => s
  | w :: ws => config_writes (write_config s w.1 w.2).1 ws

/-- Recognises the two advertising calls, stop and start. -/
def Effect.is_advertising : Effect → Bool
  | Effect.stop_advertising => true
  | Effect.start_advertising _ => true
  | _ => false

/-- Recognises a write to the configuration characteristic, the only event
whose handling runs `config_manager_apply`. -/
def Event.is_config_write : Event → Bool
  | Event.config_write _ _ => true
  | _ => false

/-- The two ways in which the firmware reaches the configuration store after
`config_manager_init`: a call of `config_manager_set` (`none` for a `NULL`
argument) and a write to the configuration characteristic. -/
inductive StoreOp where
  | set (config : Option fm_config)
  | write (buf : List Nat) (offset : Nat)
  deriving DecidableEq, Repr

/-- Handling of one store operation. -/
def store_op (s : State) : StoreOp → State
  | StoreOp.set config => (config_manager_set s config).1
  | StoreOp.write buf offset => (write_config s buf offset).1

/-- Handling of a sequence of store operations, oldest first. -/
def store_ops (s : State) : List StoreOp → State
  | [] => s
  | op :: ops => store_ops (store_op s op) ops

/-- The three bounds that `config_manager_set` checks. -/
def store_valid (c : fm_config) : Prop :=
  1 ≤ c.notify_rate_hz ∧ c.notify_rate_hz ≤ 100 ∧ c.accel_range ≤ 3 ∧
    c.stream_mode ≤ STREAM_MODE_EVENTS

/-- The stored configuration with the idle advertising interval changed to
2000 ms, in the connected firmware. -/
def reconfigured_state : State :=
  (config_manager_set connected_idle_state
    (some { default_config with adv_interval_idle := 2000 })).1

/-! ## Frame lemmas -/

theorem power_mgmt_set_state_current_state (s : State) (state : Nat) :
    (power_mgmt_set_state s state).1.current_state = state := by
  unfold power_mgmt_set_state
  simp only []
  split_ifs <;> rfl

theorem power_mgmt_set_state_active_timeout_work (s : State) (state : Nat) :
    (power_mgmt_set_state s state).1.active_timeout_work = s.active_timeout_work := by
  unfold power_mgmt_set_state
  simp only []
  split_ifs <;> rfl

theorem power_mgmt_set_state_cm_config (s : State) (state : Nat) :
    (power_mgmt_set_state s state).1.cm_config = s.cm_config := by
  unfold power_mgmt_set_state
  simp only []
  split_ifs <;> rfl

/-! ## Configuration store -/

/-- C1: for every stored configuration and every candidate whose
`notify_rate_hz` is 0 or greater than 100, `config_manager_set` returns an
error (`-EINVAL`, which is not 0), changes nothing, and `config_manager_get`
afterwards returns exactly what it returned before the call. -/
theorem config_manager_set_rejects_notify_rate (s : State) (c : fm_config)
    (h : c.notify_rate_hz = 0 ∨ c.notify_rate_hz > 100) :
    (config_manager_set s (some c)).2 = -EINVAL ∧
    (config_manager_set s (some c)).2 ≠ 0 ∧
    (config_manager_set s (some c)).1 = s ∧
    config_manager_get (config_manager_set s (some c)).1 false = (0, some s.cm_config) ∧
    config_manager_get s false = (0, some s.cm_config) := by
  have hbad : c.notify_rate_hz < 1 ∨ c.notify_rate_hz > 100 := by omega
  have hset : config_manager_set s (some c) = (s, -EINVAL) := by
    unfold config_manager_set
    simp only []
    rw [if_pos hbad]
  rw [hset]
  simp [config_manager_get]

/-- Witness of C1 at the rates 0 and 101, against the store after start-up. -/
theorem config_manager_set_rejects_notify_rate_witness :
    ((config_manager_set boot (some { default_config with notify_rate_hz := 0 })).2 = -EINVAL ∧
      (config_manager_set boot (some { default_config with notify_rate_hz := 0 })).1 = boot) ∧
    ((config_manager_set boot (some { default_config with notify_rate_hz := 101 })).2 = -EINVAL ∧
      (config_manager_set boot (some { default_config with notify_rate_hz := 101 })).1 = boot) :=
  ⟨⟨(config_manager_set_rejects_notify_rate boot
        { default_config with notify_rate_hz := 0 } (Or.inl rfl)).1,
    (config_manager_set_rejects_notify_rate boot
        { default_config with notify_rate_hz := 0 } (Or.inl rfl)).2.2.1⟩,
   ⟨(config_manager_set_rejects_notify_rate boot
        { default_config with notify_rate_hz := 101 } (Or.inr (by decide))).1,
    (config_manager_set_rejects_notify_rate boot
        { default_config with notify_rate_hz := 101 } (Or.inr (by decide))).2.2.1⟩⟩

/-- C2: the candidate with `adv_interval_idle = 0` (outside 1000..2000) and
`adv_interval_active = 65535` (outside 20..100), all other fields at their
defaults, is accepted by `config_manager_set`: the result is 0 and the
candidate is stored, out-of-range intervals included. -/
theorem config_manager_set_accepts_adv_interval_out_of_range :
    (config_manager_set boot
      (some { default_config with adv_interval_idle := 0, adv_interval_active := 65535 })).2 = 0 ∧
    (config_manager_set boot
      (some { default_config with adv_interval_idle := 0, adv_interval_active := 65535 })).1.cm_config
      = { default_config with adv_interval_idle := 0, adv_interval_active := 65535 } ∧
    (config_manager_get (config_manager_set boot
      (some { default_config with adv_interval_idle := 0, adv_interval_active := 65535 })).1 false).2
      = some ⟨50, 5000, 0, 50, 0, 65535, 1, 0⟩ := by
  decide

/-! ## Power state machine -/

/-- C3, as the code behaves: in every state the motion trigger handler leaves
the power state `POWER_STATE_ACTIVE` and calls, in this order, stop
advertising, start advertising at 100 ms, wake-on-motion off; nothing else
changes.  From Idle the result is Active as claimed; from the other states it
is Active as well, not a retained state. -/
theorem motion_trigger_handler_sets_active (s : State) :
    motion_trigger_handler s =
      { s with
        current_state := POWER_STATE_ACTIVE
        trace := s.trace ++ [Effect.stop_advertising, Effect.start_advertising 100,
                             Effect.enable_wake_on_motion false] } := by
  simp [motion_trigger_handler, power_mgmt_set_state, ble_service_stop_advertising,
    ble_service_start_advertising, accel_sensor_enable_wake_on_motion]

/-- C3 fails in `POWER_STATE_CONNECTED_IDLE`: the handler is not a no-op there,
the power state becomes `POWER_STATE_ACTIVE` and three collaborator calls are
made. -/
theorem motion_trigger_handler_not_noop_when_connected :
    connected_idle_state.current_state = POWER_STATE_CONNECTED_IDLE ∧
    (motion_trigger_handler connected_idle_state).current_state = POWER_STATE_ACTIVE ∧
    (motion_trigger_handler connected_idle_state).trace =
      connected_idle_state.trace ++ [Effect.stop_advertising, Effect.start_advertising 100,
                                     Effect.enable_wake_on_motion false] ∧
    motion_trigger_handler connected_idle_state ≠ connected_idle_state := by
  decide

/-- C4, as the code behaves: when the scheduled active timeout expires, in
`POWER_STATE_CONNECTED_ACTIVE` as in any other power state, the resulting
power state is `POWER_STATE_IDLE`, no timeout is scheduled any more, and the
calls made are stop advertising, start advertising at the stored interval and
wake-on-motion on. -/
theorem active_timeout_switches_to_idle (s : State) (t : Nat)
    (htimer : s.active_timeout_work = some t) :
    step s Event.timeout_expired =
      some { s with
        current_state := POWER_STATE_IDLE
        active_timeout_work := none
        trace := s.trace ++ [Effect.stop_advertising, Effect.start_advertising s.adv_interval,
                             Effect.enable_wake_on_motion true] } := by
  simp [step, active_timeout_fire, htimer, active_timeout_handler, power_mgmt_set_state,
    ble_service_stop_advertising, ble_service_start_advertising,
    accel_sensor_enable_wake_on_motion]

/-- Witness of C4 at the state reached by connecting and being promoted. -/
theorem active_timeout_switches_to_idle_witness :
    connected_active_state.current_state = POWER_STATE_CONNECTED_ACTIVE ∧
    connected_active_state.active_timeout_work = some 5000 ∧
    step connected_active_state Event.timeout_expired =
      some { connected_active_state with
        current_state := POWER_STATE_IDLE
        active_timeout_work := none
        trace := connected_active_state.trace ++
          [Effect.stop_advertising, Effect.start_advertising connected_active_state.adv_interval,
           Effect.enable_wake_on_motion true] } :=
  ⟨by decide, by decide,
   active_timeout_switches_to_idle connected_active_state 5000 (by decide)⟩

/-- C4 fails on the run connect, promotion on the sample (400, 400, 0), timeout
expiry: `POWER_STATE_CONNECTED_ACTIVE` is entered with the timeout scheduled,
and after the expiry the power state is `POWER_STATE_IDLE`, not
`POWER_STATE_CONNECTED_IDLE`, and advertising has been started at 1000 ms. -/
theorem active_timeout_not_connected_idle :
    run boot [Event.connected 0, Event.sensor_tick (some ⟨400, 400, 0⟩)]
      = some connected_active_state ∧
    (run boot [Event.connected 0, Event.sensor_tick (some ⟨400, 400, 0⟩),
        Event.timeout_expired]).map State.current_state = some POWER_STATE_IDLE ∧
    (run boot [Event.connected 0, Event.sensor_tick (some ⟨400, 400, 0⟩),
        Event.timeout_expired]).map State.current_state ≠ some POWER_STATE_CONNECTED_IDLE ∧
    (run boot [Event.connected 0, Event.sensor_tick (some ⟨400, 400, 0⟩),
        Event.timeout_expired]).map (fun s => s.trace.drop (s.trace.length - 3))
      = some [Effect.stop_advertising, Effect.start_advertising 1000,
              Effect.enable_wake_on_motion true] := by
  decide

/-! ## The active timeout -/

theorem config_manager_apply_frame (s : State) :
    (config_manager_apply s).current_state = s.current_state ∧
    (config_manager_apply s).active_timeout_work = s.active_timeout_work ∧
    (config_manager_apply s).cm_config = s.cm_config ∧
    (config_manager_apply s).ble_config = s.ble_config := by
  unfold config_manager_apply power_mgmt_update_advertising ble_service_set_stream_mode
  simp only []
  split_ifs <;> exact ⟨rfl, rfl, rfl, rfl⟩

theorem config_manager_set_frame (s : State) (config : Option fm_config) :
    (config_manager_set s config).1.current_state = s.current_state ∧
    (config_manager_set s config).1.active_timeout_work = s.active_timeout_work ∧
    (config_manager_set s config).1.trace = s.trace ∧
    (config_manager_set s config).1.ble_config = s.ble_config := by
  unfold config_manager_set
  cases config with
  | none => exact ⟨rfl, rfl, rfl, rfl⟩
  | some c =>
    simp only []
    split_ifs <;> exact ⟨rfl, rfl, rfl, rfl⟩

theorem write_config_frame (s : State) (buf : List Nat) (offset : Nat) :
    (write_config s buf offset).1.current_state = s.current_state ∧
    (write_config s buf offset).1.active_timeout_work = s.active_timeout_work := by
  unfold write_config
  simp only []
  split_ifs
  · exact ⟨rfl, rfl⟩
  · rw [(config_manager_apply_frame _).1, (config_manager_apply_frame _).2.1,
      (config_manager_set_frame _ _).1, (config_manager_set_frame _ _).2.1]
    exact ⟨rfl, rfl⟩
  · exact ⟨rfl, rfl⟩

theorem ble_service_notify_xyz_frame (s : State) (data : accel_data) :
    (ble_service_notify_xyz s data).current_state = s.current_state ∧
    (ble_service_notify_xyz s data).active_timeout_work = s.active_timeout_work ∧
    (ble_service_notify_xyz s data).cm_config = s.cm_config := by
  unfold ble_service_notify_xyz
  split_ifs <;> exact ⟨rfl, rfl, rfl⟩

theorem timeout_invariant_of_ne (s : State)
    (h : s.current_state ≠ POWER_STATE_CONNECTED_ACTIVE) : timeout_invariant s :=
  fun h3 => absurd h3 h

theorem timeout_invariant_of_frame (s s1 : State) (hs : timeout_invariant s)
    (h1 : s1.current_state = s.current_state)
    (h2 : s1.active_timeout_work = s.active_timeout_work) : timeout_invariant s1 := by
  unfold timeout_invariant at *
  rw [h1, h2]
  exact hs

theorem sensor_thread_iter_invariant (s : State) (reading : Option accel_data)
    (r : State × Nat) (hs : timeout_invariant s)
    (h : sensor_thread_iter s reading = some r) : timeout_invariant r.1 := by
  unfold sensor_thread_iter at h
  simp only [config_manager_get, Bool.false_eq_true, if_false] at h
  split at h
  · exact absurd h (by simp)
  next period_ms _ =>
    cases reading with
    | none =>
      simp only [Option.some.injEq] at h
      rw [← h]
      exact hs
    | some data =>
      simp only [ble_service_get_stream_mode, power_mgmt_get_state] at h
      have key : ∀ s1 : State, s1.current_state = s.current_state →
          s1.active_timeout_work = s.active_timeout_work →
          (if s1.current_state = POWER_STATE_CONNECTED_IDLE then
            match sensor_thread_magnitude data with
            | none => none
            | some magnitude =>
              if magnitude > 100 then
                some (power_mgmt_schedule_active_timeout
                  (power_mgmt_set_state s1 POWER_STATE_CONNECTED_ACTIVE).1
                  s.cm_config.active_timeout_ms, period_ms)
              else some (s1, period_ms)
          else some (s1, period_ms)) = some r → timeout_invariant r.1 := by
        intro s1 e1 e2 hr
        split_ifs at hr with hc
        · split at hr
          · exact absurd hr (by simp)
          · split_ifs at hr
            · simp only [Option.some.injEq] at hr
              rw [← hr]
              intro _
              rfl
            · simp only [Option.some.injEq] at hr
              rw [← hr]
              exact timeout_invariant_of_frame s s1 hs e1 e2
        · simp only [Option.some.injEq] at hr
          rw [← hr]
          exact timeout_invariant_of_frame s s1 hs e1 e2
      by_cases hm : s.stream_mode = STREAM_MODE_RAW ∨ s.stream_mode = STREAM_MODE_FILTERED
      · simp only [if_pos hm] at h
        exact key _ (ble_service_notify_xyz_frame s data).1
          (ble_service_notify_xyz_frame s data).2.1 h
      · simp only [if_neg hm] at h
        by_cases he : s.stream_mode = STREAM_MODE_EVENTS
        · simp only [if_pos he] at h
          exact key _ (ble_service_notify_xyz_frame s data).1
            (ble_service_notify_xyz_frame s data).2.1 h
        · simp only [if_neg he] at h
          exact key _ rfl rfl h

theorem step_invariant (s s1 : State) (e : Event) (hs : timeout_invariant s)
    (h : step s e = some s1) : timeout_invariant s1 := by
  cases e with
  | connected err =>
    simp only [step, Option.some.injEq] at h
    rw [← h]
    unfold connected
    split_ifs
    · exact hs
    · exact timeout_invariant_of_ne _ (by rw [power_mgmt_set_state_current_state]; decide)
  | disconnected reason =>
    simp only [step, Option.some.injEq] at h
    rw [← h]
    exact timeout_invariant_of_ne _
      (by unfold disconnected; rw [power_mgmt_set_state_current_state]; decide)
  | motion =>
    simp only [step, Option.some.injEq] at h
    rw [← h]
    exact timeout_invariant_of_ne _
      (by unfold motion_trigger_handler; rw [power_mgmt_set_state_current_state]; decide)
  | sensor_tick reading =>
    simp only [step, Option.map_eq_some'] at h
    obtain ⟨r, hr, hr1⟩ := h
    rw [← hr1]
    exact sensor_thread_iter_invariant s reading r hs hr
  | timeout_expired =>
    simp only [step, Option.some.injEq] at h
    rw [← h]
    unfold active_timeout_fire
    split
    · exact hs
    · exact timeout_invariant_of_ne _
        (by unfold active_timeout_handler; rw [power_mgmt_set_state_current_state]; decide)
  | config_write buf offset =>
    simp only [step, Option.some.injEq] at h
    rw [← h]
    exact timeout_invariant_of_frame s _ hs (write_config_frame s buf offset).1
      (write_config_frame s buf offset).2

theorem run_invariant (evs : List Event) :
    ∀ s s1 : State, timeout_invariant s → run s evs = some s1 → timeout_invariant s1 := by
  induction evs with
  | nil =>
    intro s s1 hs h
    simp only [run, Option.some.injEq] at h
    rw [← h]
    exact hs
  | cons e es ih =>
    intro s s1 hs h
    simp only [run] at h
    split at h
    · exact absurd h (by simp)
    · next s2 h2 => exact ih s2 s1 (step_invariant s s2 e hs h2) h

theorem disconnected_frame (s : State) (reason : Nat) :
    (disconnected s reason).current_state = POWER_STATE_IDLE ∧
    (disconnected s reason).active_timeout_work = s.active_timeout_work := by
  unfold disconnected
  exact ⟨power_mgmt_set_state_current_state _ _, power_mgmt_set_state_active_timeout_work _ _⟩

/-- C5, as the code behaves: after every completed sequence of events
(connect, disconnect, motion, sensor thread pass, timeout expiry, configuration
write) from the started firmware, a power state of
`POWER_STATE_CONNECTED_ACTIVE` implies that the active timeout is scheduled.
The converse is not kept: a disconnect sets `POWER_STATE_IDLE` and leaves the
work item as it was, so a scheduled timeout stays scheduled, and its later
expiry sets `POWER_STATE_IDLE` once more. -/
theorem timeout_scheduled_when_connected_active (evs : List Event) (s : State)
    (h : run boot evs = some s) :
    (s.current_state = POWER_STATE_CONNECTED_ACTIVE → s.active_timeout_work.isSome = true) ∧
    (∀ reason : Nat,
      (disconnected s reason).current_state = POWER_STATE_IDLE ∧
      (disconnected s reason).active_timeout_work = s.active_timeout_work) ∧
    (∀ t : Nat, s.active_timeout_work = some t →
      (step s Event.timeout_expired).map State.current_state = some POWER_STATE_IDLE ∧
      (step s Event.timeout_expired).map State.active_timeout_work = some none) := by
  refine ⟨run_invariant evs boot s (timeout_invariant_of_ne boot (by decide)) h,
    fun reason => disconnected_frame s reason, ?_⟩
  intro t ht
  simp [step, active_timeout_fire, ht, active_timeout_handler,
    power_mgmt_set_state_current_state, power_mgmt_set_state_active_timeout_work]

/-- Witness of C5 on the run connect, promotion on the sample (400, 400, 0). -/
theorem timeout_scheduled_when_connected_active_witness :
    run boot [Event.connected 0, Event.sensor_tick (some ⟨400, 400, 0⟩)]
      = some connected_active_state ∧
    (connected_active_state.current_state = POWER_STATE_CONNECTED_ACTIVE →
      connected_active_state.active_timeout_work.isSome = true) :=
  ⟨by decide,
   (timeout_scheduled_when_connected_active
      [Event.connected 0, Event.sensor_tick (some ⟨400, 400, 0⟩)]
      connected_active_state (by decide)).1⟩

/-- C5 fails on the run connect, promotion, disconnect: afterwards the power
state is `POWER_STATE_IDLE` while the timeout is still scheduled; after a
following motion event (`POWER_STATE_ACTIVE`) the expiry of that timeout
moves the power state to `POWER_STATE_IDLE`. -/
theorem timeout_still_scheduled_after_disconnect :
    (run boot [Event.connected 0, Event.sensor_tick (some ⟨400, 400, 0⟩),
        Event.disconnected 0]).map (fun s => (s.current_state, s.active_timeout_work))
      = some (POWER_STATE_IDLE, some 5000) ∧
    (run boot [Event.connected 0, Event.sensor_tick (some ⟨400, 400, 0⟩),
        Event.disconnected 0, Event.motion]).map
          (fun s => (s.current_state, s.active_timeout_work))
      = some (POWER_STATE_ACTIVE, some 5000) ∧
    (run boot [Event.connected 0, Event.sensor_tick (some ⟨400, 400, 0⟩),
        Event.disconnected 0, Event.motion, Event.timeout_expired]).map
          (fun s => (s.current_state, s.active_timeout_work))
      = some (POWER_STATE_IDLE, none) := by
  decide

/-! ## Sensor thread -/

/-- C6: on the sample (6000, 0, 0) read in `POWER_STATE_CONNECTED_IDLE` the
exact value (x*x + y*y + z*z) / 1000 is 36000, above 100, yet the `int16_t`
local `magnitude` holds -29536 and the pass through the loop body neither
changes the power state nor schedules the timeout.  On the two samples the
specification names, (10, 0, 0) and (400, 400, 0), the magnitudes are 0 and
320 and only the second promotes. -/
theorem sensor_thread_magnitude_narrowed :
    ((6000 : Int) * 6000 + 0 * 0 + 0 * 0) / 1000 = 36000 ∧
    sensor_thread_magnitude ⟨6000, 0, 0⟩ = some (-29536) ∧
    connected_idle_state.current_state = POWER_STATE_CONNECTED_IDLE ∧
    (sensor_thread_iter connected_idle_state (some ⟨6000, 0, 0⟩)).map
        (fun r => (r.1.current_state, r.1.active_timeout_work))
      = some (POWER_STATE_CONNECTED_IDLE, none) ∧
    sensor_thread_magnitude ⟨10, 0, 0⟩ = some 0 ∧
    (sensor_thread_iter connected_idle_state (some ⟨10, 0, 0⟩)).map
        (fun r => (r.1.current_state, r.1.active_timeout_work))
      = some (POWER_STATE_CONNECTED_IDLE, none) ∧
    sensor_thread_magnitude ⟨400, 400, 0⟩ = some 320 ∧
    (sensor_thread_iter connected_idle_state (some ⟨400, 400, 0⟩)).map
        (fun r => (r.1.current_state, r.1.active_timeout_work))
      = some (POWER_STATE_CONNECTED_ACTIVE, some 5000) := by
  decide

/-! ## Configuration characteristic -/

theorem apply_count_config_manager_apply (s : State) :
    apply_count (config_manager_apply s).trace = apply_count s.trace + 1 := by
  unfold config_manager_apply power_mgmt_update_advertising ble_service_set_stream_mode
    accel_sensor_set_range accel_sensor_set_odr accel_sensor_set_motion_threshold
    ble_service_stop_advertising ble_service_start_advertising
  simp only []
  split_ifs <;> simp [apply_count, List.countP_append, List.countP_cons, Effect.is_set_odr]

theorem apply_count_write_config (s : State) (buf : List Nat) (offset : Nat) :
    apply_count (write_config s buf offset).1.trace
      = apply_count s.trace + (if offset + buf.length = sizeof_fm_config then 1 else 0) := by
  unfold write_config
  simp only []
  split_ifs with h1 h2
  · omega
  · rfl
  · rw [apply_count_config_manager_apply, (config_manager_set_frame _ _).2.2.1]
  · rfl

theorem apply_count_config_writes (ws : List (List Nat × Nat)) :
    ∀ s : State, apply_count (config_writes s ws).trace
      = apply_count s.trace
        + (ws.filter (fun w => decide (w.2 + w.1.length = sizeof_fm_config))).length := by
  induction ws with
  | nil => intro s; simp [config_writes]
  | cons w ws ih =>
    intro s
    simp only [config_writes]
    rw [ih, apply_count_write_config, List.filter_cons]
    split_ifs with h1 h2 h2
    · simp only [List.length_cons]; omega
    · simp at h2; exact absurd h1 h2
    · simp at h2; exact absurd h2 h1
    · rfl

theorem memcpy_at_two_chunks (r a b : List Nat) (hr : r.length = 12) (ha : a.length = 6)
    (hb : b.length = 6) : memcpy_at (memcpy_at r 0 a) 6 b = a ++ b := by
  have e1 : memcpy_at r 0 a = a ++ List.drop 6 r := by simp [memcpy_at, ha]
  rw [e1]
  unfold memcpy_at
  have ht : List.take 6 (a ++ List.drop 6 r) = a := List.take_left' ha
  have hd : List.drop (6 + b.length) (a ++ List.drop 6 r) = [] := by
    apply List.drop_eq_nil_of_le
    simp [ha, hb, hr]
  rw [ht, hd, List.append_nil]

/-- C7, as the code behaves: `write_config` runs validation and apply exactly
when a write ends at byte 12 (offset + len = 12), whatever was received
before.  For every sequence of writes the number of apply runs equals the
number of writes ending at byte 12; a write with offset + len > 12 is refused
with `BT_ATT_ERR_INVALID_OFFSET` and changes nothing; a write ending before
byte 12 only changes the bytes it covers; a write ending at byte 12 hands the
record to `config_manager_set` and runs `config_manager_apply`.  Writing
bytes 0-5 and then bytes 6-11 of a record runs validation and apply once, on
the second write, on exactly the twelve bytes written. -/
theorem write_config_applies_when_ending_at_12 (s : State) (ws : List (List Nat × Nat)) :
    apply_count (config_writes s ws).trace
      = apply_count s.trace
        + (ws.filter (fun w => decide (w.2 + w.1.length = sizeof_fm_config))).length ∧
    (∀ (buf : List Nat) (offset : Nat), offset + buf.length > sizeof_fm_config →
      write_config s buf offset = (s, -BT_ATT_ERR_INVALID_OFFSET)) ∧
    (∀ (buf : List Nat) (offset : Nat), offset + buf.length < sizeof_fm_config →
      write_config s buf offset
        = ({ s with ble_config := memcpy_at s.ble_config offset buf }, (buf.length : Int))) ∧
    (∀ (buf : List Nat) (offset : Nat), offset + buf.length = sizeof_fm_config →
      write_config s buf offset
        = (config_manager_apply
            (config_manager_set { s with ble_config := memcpy_at s.ble_config offset buf }
              (some (fm_config_of_bytes (memcpy_at s.ble_config offset buf)))).1,
           (buf.length : Int))) ∧
    (∀ a b : List Nat, s.ble_config.length = 12 → a.length = 6 → b.length = 6 →
      (write_config s a 0).1.cm_config = s.cm_config ∧
      apply_count (write_config s a 0).1.trace = apply_count s.trace ∧
      apply_count (config_writes s [(a, 0), (b, 6)]).trace = apply_count s.trace + 1 ∧
      (config_writes s [(a, 0), (b, 6)]).ble_config = a ++ b ∧
      (config_writes s [(a, 0), (b, 6)]).cm_config
        = (config_manager_set s (some (fm_config_of_bytes (a ++ b)))).1.cm_config) := by
  refine ⟨apply_count_config_writes ws s, ?_, ?_, ?_, ?_⟩
  · intro buf offset h
    unfold write_config
    simp only []
    rw [if_pos h]
  · intro buf offset h
    unfold write_config
    simp only []
    rw [if_neg (by omega), if_neg (by omega)]
  · intro buf offset h
    unfold write_config
    simp only []
    rw [if_neg (by omega), if_pos h]
    rfl
  · intro a b hs ha hb
    have hw1 : write_config s a 0
        = ({ s with ble_config := memcpy_at s.ble_config 0 a }, (a.length : Int)) := by
      unfold write_config
      simp only []
      rw [if_neg (by simp only [sizeof_fm_config]; omega),
        if_neg (by simp only [sizeof_fm_config]; omega)]
    have hw2 : ∀ s1 : State, s1.ble_config = memcpy_at s.ble_config 0 a →
        (write_config s1 b 6).1 = config_manager_apply
          (config_manager_set { s1 with ble_config := a ++ b }
            (some (fm_config_of_bytes (a ++ b)))).1 := by
      intro s1 h1
      unfold write_config
      simp only []
      rw [if_neg (by simp only [sizeof_fm_config]; omega),
        if_pos (by simp only [sizeof_fm_config]; omega)]
      simp only [ble_service_get_config, h1, memcpy_at_two_chunks s.ble_config a b hs ha hb]
    refine ⟨by rw [hw1], by rw [hw1], ?_, ?_, ?_⟩
    · rw [apply_count_config_writes]
      simp [ha, hb]
    · simp only [config_writes]
      rw [hw2 _ (by rw [hw1]), (config_manager_apply_frame _).2.2.2,
        (config_manager_set_frame _ _).2.2.2]
    · simp only [config_writes]
      rw [hw2 _ (by rw [hw1]), (config_manager_apply_frame _).2.2.1, hw1]
      unfold config_manager_set
      simp only []
      split_ifs <;> rfl

/-- Witness of C7: the default record with `adv_interval_idle` changed to 2000,
written to the started firmware as bytes 0-5 and then bytes 6-11. -/
theorem write_config_applies_when_ending_at_12_witness :
    apply_count (write_config boot [50, 0, 136, 19, 0, 50] 0).1.trace = apply_count boot.trace ∧
    apply_count (config_writes boot [([50, 0, 136, 19, 0, 50], 0),
        ([208, 7, 100, 0, 1, 0], 6)]).trace = apply_count boot.trace + 1 ∧
    (config_writes boot [([50, 0, 136, 19, 0, 50], 0),
        ([208, 7, 100, 0, 1, 0], 6)]).ble_config
      = [50, 0, 136, 19, 0, 50] ++ [208, 7, 100, 0, 1, 0] :=
  ⟨((write_config_applies_when_ending_at_12 boot []).2.2.2.2
      [50, 0, 136, 19, 0, 50] [208, 7, 100, 0, 1, 0] (by decide) (by decide) (by decide)).2.1,
   ((write_config_applies_when_ending_at_12 boot []).2.2.2.2
      [50, 0, 136, 19, 0, 50] [208, 7, 100, 0, 1, 0] (by decide) (by decide) (by decide)).2.2.1,
   ((write_config_applies_when_ending_at_12 boot []).2.2.2.2
      [50, 0, 136, 19, 0, 50] [208, 7, 100, 0, 1, 0] (by decide) (by decide)
      (by decide)).2.2.2.1⟩

/-- C7 fails on the first write after start-up being the six bytes 6-11 alone:
bytes 0-5 were never received, yet the write ends at byte 12, so validation
and apply run: the stored `adv_interval_idle` changes from 1000 to 2000 and
one more apply run is recorded. -/
theorem write_config_applies_without_earlier_bytes :
    (write_config boot [208, 7, 100, 0, 1, 0] 6).2 = 6 ∧
    boot.cm_config.adv_interval_idle = 1000 ∧
    (write_config boot [208, 7, 100, 0, 1, 0] 6).1.cm_config.adv_interval_idle = 2000 ∧
    apply_count (write_config boot [208, 7, 100, 0, 1, 0] 6).1.trace
      = apply_count boot.trace + 1 := by
  decide

/-- C8: the 12-byte write of `invalid_record` (`notify_rate_hz` = 0) to the
started firmware.  `config_manager_set` refuses the record with `-EINVAL` and
the configuration store keeps its value, but `write_config` returns 12, the
length of a successful write, and the record served by `read_config` and
`ble_service_get_config` is the refused one, no longer the one from before
the write. -/
theorem write_config_invalid_record_reported_written :
    (config_manager_set boot (some (fm_config_of_bytes invalid_record))).2 = -EINVAL ∧
    (write_config boot invalid_record 0).2 = 12 ∧
    (write_config boot invalid_record 0).1.cm_config = boot.cm_config ∧
    read_config boot 12 0 = (12, [50, 0, 136, 19, 0, 50, 232, 3, 100, 0, 1, 0]) ∧
    read_config (write_config boot invalid_record 0).1 12 0 = (12, invalid_record) ∧
    (ble_service_get_config boot).notify_rate_hz = 50 ∧
    (ble_service_get_config (write_config boot invalid_record 0).1).notify_rate_hz = 0 := by
  decide

/-- C9: the request for the state value 4, which names no power state, made
to the started firmware.  `power_mgmt_set_state` returns `-EINVAL` and makes
no collaborator call, but `power_mgmt_get_state`, which returned
`POWER_STATE_IDLE` before, returns 4 afterwards. -/
theorem power_mgmt_set_state_stores_invalid_state :
    (power_mgmt_set_state boot 4).2 = -EINVAL ∧
    (power_mgmt_set_state boot 4).1.trace = boot.trace ∧
    power_mgmt_get_state boot = POWER_STATE_IDLE ∧
    power_mgmt_get_state (power_mgmt_set_state boot 4).1 = 4 := by
  decide

/-- C10: for every `notify_rate_hz` of at least 1 the period computed by the
sensor thread is `max 10 (1000 / notify_rate_hz)` with floor division; it lies
between 10 and 1000, and it is the period every pass through the loop body
sleeps with that rate stored: on a failed sensor read, on every pass that
yields a result whatever the reading, and a pass on a successful read does
yield a result whenever the power state is not `POWER_STATE_CONNECTED_IDLE`
or the magnitude computation stays within `int`. -/
theorem sensor_thread_period_ms_eq (notify_rate_hz : Nat) (h : 1 ≤ notify_rate_hz) :
    sensor_thread_period_ms notify_rate_hz = some (max 10 (1000 / notify_rate_hz)) ∧
    10 ≤ max 10 (1000 / notify_rate_hz) ∧
    max 10 (1000 / notify_rate_hz) ≤ 1000 ∧
    (∀ s : State, s.cm_config.notify_rate_hz = notify_rate_hz →
      sensor_thread_iter s none = some (s, max 10 (1000 / notify_rate_hz))) ∧
    (∀ (s : State) (reading : Option accel_data) (r : State × Nat),
      s.cm_config.notify_rate_hz = notify_rate_hz →
      sensor_thread_iter s reading = some r → r.2 = max 10 (1000 / notify_rate_hz)) ∧
    (∀ (s : State) (data : accel_data), s.cm_config.notify_rate_hz = notify_rate_hz →
      (s.current_state ≠ POWER_STATE_CONNECTED_IDLE ∨
        (sensor_thread_magnitude data).isSome = true) →
      ∃ s1 : State,
        sensor_thread_iter s (some data) = some (s1, max 10 (1000 / notify_rate_hz))) := by
  have hp : sensor_thread_period_ms notify_rate_hz = some (max 10 (1000 / notify_rate_hz)) := by
    unfold sensor_thread_period_ms
    rw [if_neg (by omega)]
    simp only [Option.some.injEq]
    split_ifs with h10
    · exact (max_eq_left (by omega)).symm
    · exact (max_eq_right (by omega)).symm
  have hle : 1000 / notify_rate_hz ≤ 1000 := Nat.div_le_self 1000 notify_rate_hz
  refine ⟨hp, le_max_left 10 _, max_le (by decide) hle, ?_, ?_, ?_⟩
  · intro s hs
    unfold sensor_thread_iter
    simp only [config_manager_get, Bool.false_eq_true, if_false, hs, hp]
  · intro s reading r hs hr
    unfold sensor_thread_iter at hr
    simp only [config_manager_get, Bool.false_eq_true, if_false, hs, hp] at hr
    repeat' split at hr
    all_goals
      first
      | (simp only [Option.some.injEq] at hr
         subst hr
         rfl)
      | simp at hr
  · intro s data hs hd
    unfold sensor_thread_iter
    simp only [config_manager_get, Bool.false_eq_true, if_false, hs, hp,
      ble_service_get_stream_mode, power_mgmt_get_state]
    have hcs : (if s.stream_mode = STREAM_MODE_RAW ∨ s.stream_mode = STREAM_MODE_FILTERED then
          ble_service_notify_xyz s data
        else if s.stream_mode = STREAM_MODE_EVENTS then ble_service_notify_xyz s data
        else s).current_state = s.current_state := by
      split_ifs
      · exact (ble_service_notify_xyz_frame s data).1
      · exact (ble_service_notify_xyz_frame s data).1
      · rfl
    rw [hcs]
    by_cases hc : s.current_state = POWER_STATE_CONNECTED_IDLE
    · rw [if_pos hc]
      have hm : (sensor_thread_magnitude data).isSome = true := by
        cases hd with
        | inl hne => exact absurd hc hne
        | inr hm => exact hm
      obtain ⟨m, hm1⟩ := Option.isSome_iff_exists.mp hm
      rw [hm1]
      simp only []
      split_ifs <;> exact ⟨_, rfl⟩
    · rw [if_neg hc]
      exact ⟨_, rfl⟩

/-- Witness of C10 at the rates 50 (period 20) and 200 (period 10), and on a
pass with a successful read that promotes, with the default rate 50 stored. -/
theorem sensor_thread_period_ms_eq_witness :
    sensor_thread_period_ms 50 = some 20 ∧ sensor_thread_period_ms 200 = some 10 ∧
    (∃ s1 : State,
      sensor_thread_iter connected_idle_state (some ⟨400, 400, 0⟩) = some (s1, 20)) :=
  ⟨(sensor_thread_period_ms_eq 50 (by decide)).1, (sensor_thread_period_ms_eq 200 (by decide)).1,
   (sensor_thread_period_ms_eq 50 (by decide)).2.2.2.2.2 connected_idle_state ⟨400, 400, 0⟩
     (by decide) (Or.inr (by decide))⟩

/-! ## Applying a configuration -/

theorem power_mgmt_set_state_adv_interval (s : State) (state : Nat) :
    (power_mgmt_set_state s state).1.adv_interval = s.adv_interval := by
  unfold power_mgmt_set_state
  simp only []
  split_ifs <;> rfl

theorem power_mgmt_set_state_idle_trace (s : State) :
    (power_mgmt_set_state s POWER_STATE_IDLE).1.trace
      = s.trace ++ [Effect.stop_advertising, Effect.start_advertising s.adv_interval,
                    Effect.enable_wake_on_motion true] := by
  simp [power_mgmt_set_state, ble_service_stop_advertising, ble_service_start_advertising,
    accel_sensor_enable_wake_on_motion]

theorem ble_service_notify_xyz_adv_interval (s : State) (data : accel_data) :
    (ble_service_notify_xyz s data).adv_interval = s.adv_interval := by
  unfold ble_service_notify_xyz
  split_ifs <;> rfl

theorem sensor_thread_iter_adv_interval (s : State) (reading : Option accel_data)
    (r : State × Nat) (h : sensor_thread_iter s reading = some r) :
    r.1.adv_interval = s.adv_interval := by
  unfold sensor_thread_iter at h
  simp only [config_manager_get, Bool.false_eq_true, if_false, ble_service_get_stream_mode,
    power_mgmt_get_state] at h
  repeat' split at h
  all_goals
    first
    | (simp only [Option.some.injEq] at h
       subst h
       simp [power_mgmt_schedule_active_timeout, power_mgmt_set_state_adv_interval,
         ble_service_notify_xyz_adv_interval])
    | simp at h

theorem step_adv_interval (s s1 : State) (e : Event) (he : e.is_config_write = false)
    (h : step s e = some s1) : s1.adv_interval = s.adv_interval := by
  cases e with
  | connected err =>
    simp only [step, Option.some.injEq] at h
    rw [← h]
    unfold connected
    split_ifs
    · rfl
    · rw [power_mgmt_set_state_adv_interval]
  | disconnected reason =>
    simp only [step, Option.some.injEq] at h
    rw [← h]
    unfold disconnected
    rw [power_mgmt_set_state_adv_interval]
  | motion =>
    simp only [step, Option.some.injEq] at h
    rw [← h]
    unfold motion_trigger_handler
    rw [power_mgmt_set_state_adv_interval]
  | sensor_tick reading =>
    simp only [step, Option.map_eq_some'] at h
    obtain ⟨r, hr, hr1⟩ := h
    rw [← hr1]
    exact sensor_thread_iter_adv_interval s reading r hr
  | timeout_expired =>
    simp only [step, Option.some.injEq] at h
    rw [← h]
    unfold active_timeout_fire
    split
    · rfl
    · unfold active_timeout_handler
      rw [power_mgmt_set_state_adv_interval]
  | config_write buf offset =>
    exact absurd he (by simp [Event.is_config_write])

theorem run_adv_interval (evs : List Event) :
    ∀ s s1 : State, evs.all (fun e => !e.is_config_write) = true →
      run s evs = some s1 → s1.adv_interval = s.adv_interval := by
  induction evs with
  | nil =>
    intro s s1 _ h
    simp only [run, Option.some.injEq] at h
    rw [← h]
  | cons e es ih =>
    intro s s1 hev h
    simp only [List.all_cons, Bool.and_eq_true, Bool.not_eq_true'] at hev
    simp only [run] at h
    split at h
    · exact absurd h (by simp)
    · next s2 h2 =>
      rw [ih s2 s1 hev.2 h, step_adv_interval s s2 e hev.1 h2]

theorem config_manager_apply_trace (s : State) :
    (config_manager_apply s).trace
      = s.trace ++ ([Effect.set_range s.cm_config.accel_range,
          Effect.set_odr s.cm_config.notify_rate_hz,
          Effect.set_motion_threshold s.cm_config.motion_threshold]
        ++ (if s.current_state = POWER_STATE_IDLE then
              [Effect.stop_advertising, Effect.start_advertising s.cm_config.adv_interval_idle]
            else [])) := by
  unfold config_manager_apply power_mgmt_update_advertising ble_service_set_stream_mode
    accel_sensor_set_range accel_sensor_set_odr accel_sensor_set_motion_threshold
    ble_service_stop_advertising ble_service_start_advertising
  simp only []
  split_ifs <;> simp

theorem config_manager_apply_adv_interval (s : State) :
    (config_manager_apply s).adv_interval = s.cm_config.adv_interval_idle := by
  unfold config_manager_apply power_mgmt_update_advertising ble_service_set_stream_mode
  simp only []
  split_ifs <;> rfl

/-- C11: `config_manager_apply` restarts advertising (stop, then start at the
stored `adv_interval_idle`) exactly when the power state is
`POWER_STATE_IDLE`; in every other state it makes the three accelerometer
calls only.  It never changes the power state, and it stores the interval in
`power_mgmt.c`, where it stays through every later event other than a
configuration write, so that the next entry into `POWER_STATE_IDLE`, by a
disconnect or otherwise, starts advertising at that interval. -/
theorem config_manager_apply_advertising (s : State) (evs : List Event) (s2 : State)
    (hev : evs.all (fun e => !e.is_config_write) = true)
    (hrun : run (config_manager_apply s) evs = some s2) :
    (config_manager_apply s).current_state = s.current_state ∧
    (s.current_state = POWER_STATE_IDLE →
      (config_manager_apply s).trace
        = s.trace ++ [Effect.set_range s.cm_config.accel_range,
            Effect.set_odr s.cm_config.notify_rate_hz,
            Effect.set_motion_threshold s.cm_config.motion_threshold,
            Effect.stop_advertising,
            Effect.start_advertising s.cm_config.adv_interval_idle]) ∧
    (s.current_state ≠ POWER_STATE_IDLE →
      (config_manager_apply s).trace
        = s.trace ++ [Effect.set_range s.cm_config.accel_range,
            Effect.set_odr s.cm_config.notify_rate_hz,
            Effect.set_motion_threshold s.cm_config.motion_threshold]) ∧
    ((((config_manager_apply s).trace.drop s.trace.length).any Effect.is_advertising = true)
      ↔ s.current_state = POWER_STATE_IDLE) ∧
    s2.adv_interval = s.cm_config.adv_interval_idle ∧
    (∀ reason : Nat,
      (disconnected s2 reason).current_state = POWER_STATE_IDLE ∧
      (disconnected s2 reason).trace
        = s2.trace ++ [Effect.stop_advertising,
            Effect.start_advertising s.cm_config.adv_interval_idle,
            Effect.enable_wake_on_motion true]) ∧
    (power_mgmt_set_state s2 POWER_STATE_IDLE).1.trace
      = s2.trace ++ [Effect.stop_advertising,
          Effect.start_advertising s.cm_config.adv_interval_idle,
          Effect.enable_wake_on_motion true] := by
  have hadv : s2.adv_interval = s.cm_config.adv_interval_idle := by
    rw [run_adv_interval evs _ s2 hev hrun, config_manager_apply_adv_interval]
  refine ⟨(config_manager_apply_frame s).1, ?_, ?_, ?_, hadv, ?_, ?_⟩
  · intro h
    rw [config_manager_apply_trace, if_pos h]
    rfl
  · intro h
    rw [config_manager_apply_trace, if_neg h]
    rfl
  · rw [config_manager_apply_trace, List.drop_left]
    split_ifs with h
    · simp [Effect.is_advertising, h]
    · simp [Effect.is_advertising, h]
  · intro reason
    refine ⟨(disconnected_frame s2 reason).1, ?_⟩
    unfold disconnected
    rw [power_mgmt_set_state_idle_trace]
    exact congrArg (fun i => s2.trace ++ [Effect.stop_advertising, Effect.start_advertising i,
      Effect.enable_wake_on_motion true]) hadv
  · rw [power_mgmt_set_state_idle_trace, hadv]

/-- Witness of C11: the interval 2000 ms is stored and applied while connected;
after one more pass of the sensor thread the state is
`POWER_STATE_CONNECTED_IDLE` still, no advertising call was made, and the
disconnect starts advertising at 2000 ms. -/
theorem config_manager_apply_advertising_witness :
    reconfigured_state.current_state = POWER_STATE_CONNECTED_IDLE ∧
    reconfigured_state.adv_interval = 1000 ∧
    (config_manager_apply reconfigured_state).trace
      = reconfigured_state.trace ++ [Effect.set_range 0, Effect.set_odr 50,
          Effect.set_motion_threshold 50] ∧
    (disconnected (ble_service_notify_xyz (config_manager_apply reconfigured_state) ⟨10, 0, 0⟩)
        0).trace
      = (ble_service_notify_xyz (config_manager_apply reconfigured_state) ⟨10, 0, 0⟩).trace
        ++ [Effect.stop_advertising, Effect.start_advertising 2000,
            Effect.enable_wake_on_motion true] :=
  ⟨by decide, by decide,
   (config_manager_apply_advertising reconfigured_state
      [Event.sensor_tick (some ⟨10, 0, 0⟩)]
      (ble_service_notify_xyz (config_manager_apply reconfigured_state) ⟨10, 0, 0⟩)
      (by decide) (by decide)).2.2.1 (by decide),
   ((config_manager_apply_advertising reconfigured_state
      [Event.sensor_tick (some ⟨10, 0, 0⟩)]
      (ble_service_notify_xyz (config_manager_apply reconfigured_state) ⟨10, 0, 0⟩)
      (by decide) (by decide)).2.2.2.2.2.1 0).2⟩

/-- C12: for every configuration within the three bounds that validation
checks (`notify_rate_hz` in 1..100, `accel_range` at most 3, `stream_mode` at
most 2), whatever its other fields, `config_manager_set` returns 0 and the
following `config_manager_get` returns 0 and a record equal to the one set,
which is equality in every one of the eight fields. -/
theorem config_manager_set_get_round_trip (s : State) (c : fm_config)
    (hlo : 1 ≤ c.notify_rate_hz) (hhi : c.notify_rate_hz ≤ 100)
    (hrange : c.accel_range ≤ 3) (hmode : c.stream_mode ≤ STREAM_MODE_EVENTS) :
    (config_manager_set s (some c)).2 = 0 ∧
    config_manager_get (config_manager_set s (some c)).1 false = (0, some c) ∧
    (config_manager_set s (some c)).1.cm_config.active_timeout_ms = c.active_timeout_ms ∧
    (config_manager_set s (some c)).1.cm_config.motion_threshold = c.motion_threshold ∧
    (config_manager_set s (some c)).1.cm_config.adv_interval_idle = c.adv_interval_idle ∧
    (config_manager_set s (some c)).1.cm_config.adv_interval_active = c.adv_interval_active ∧
    (config_manager_set s (some c)).1.cm_config.reserved = c.reserved := by
  have hset : config_manager_set s (some c) = ({ s with cm_config := c }, 0) := by
    unfold config_manager_set
    simp only []
    rw [if_neg (by omega), if_neg (by omega), if_neg (by simp only [STREAM_MODE_EVENTS] at *; omega)]
  rw [hset]
  simp [config_manager_get]

/-- Witness of C12 with a record that differs from the stored one in every
field. -/
theorem config_manager_set_get_round_trip_witness :
    (config_manager_set boot (some ⟨100, 1234, 3, 255, 2000, 20, 2, 7⟩)).2 = 0 ∧
    config_manager_get (config_manager_set boot (some ⟨100, 1234, 3, 255, 2000, 20, 2, 7⟩)).1
      false = (0, some ⟨100, 1234, 3, 255, 2000, 20, 2, 7⟩) :=
  ⟨(config_manager_set_get_round_trip boot ⟨100, 1234, 3, 255, 2000, 20, 2, 7⟩
      (by decide) (by decide) (by decide) (by decide)).1,
   (config_manager_set_get_round_trip boot ⟨100, 1234, 3, 255, 2000, 20, 2, 7⟩
      (by decide) (by decide) (by decide) (by decide)).2.1⟩

/-! ## Reachable configuration stores -/

theorem config_manager_set_store_valid (s : State) (config : Option fm_config)
    (hs : store_valid s.cm_config) : store_valid (config_manager_set s config).1.cm_config := by
  unfold config_manager_set
  cases config with
  | none => exact hs
  | some c =>
    simp only []
    split_ifs with h1 h2 h3
    · exact hs
    · exact hs
    · exact hs
    · unfold store_valid
      simp only [STREAM_MODE_EVENTS] at *
      omega

theorem write_config_store_valid (s : State) (buf : List Nat) (offset : Nat)
    (hs : store_valid s.cm_config) : store_valid (write_config s buf offset).1.cm_config := by
  unfold write_config
  simp only []
  split_ifs
  · exact hs
  · rw [(config_manager_apply_frame _).2.2.1]
    exact config_manager_set_store_valid _ _ hs
  · exact hs

theorem store_ops_store_valid (ops : List StoreOp) :
    ∀ s : State, store_valid s.cm_config → store_valid (store_ops s ops).cm_config := by
  induction ops with
  | nil => intro s hs; exact hs
  | cons op ops ih =>
    intro s hs
    simp only [store_ops]
    apply ih
    cases op with
    | set config => exact config_manager_set_store_valid s config hs
    | write buf offset => exact write_config_store_valid s buf offset hs

theorem config_manager_init_store_valid (s : State) :
    store_valid (config_manager_init s).1.cm_config := by
  unfold config_manager_init
  rw [(config_manager_apply_frame _).2.2.1]
  show store_valid default_config
  unfold store_valid default_config
  decide

/-- C13: in every state reached from `config_manager_init` by a sequence of
`config_manager_set` calls and configuration writes, accepted or refused,
`config_manager_get` returns a record with `notify_rate_hz` in 1..100,
`accel_range` at most 3 and `stream_mode` at most 2; so the division
`1000 / notify_rate_hz` of the sensor thread has a non-zero divisor and a pass
through its loop body yields a period. -/
theorem config_store_stays_valid (s0 : State) (ops : List StoreOp) :
    config_manager_get (store_ops (config_manager_init s0).1 ops) false
      = (0, some (store_ops (config_manager_init s0).1 ops).cm_config) ∧
    1 ≤ (store_ops (config_manager_init s0).1 ops).cm_config.notify_rate_hz ∧
    (store_ops (config_manager_init s0).1 ops).cm_config.notify_rate_hz ≤ 100 ∧
    (store_ops (config_manager_init s0).1 ops).cm_config.accel_range ≤ 3 ∧
    (store_ops (config_manager_init s0).1 ops).cm_config.stream_mode ≤ 2 ∧
    (store_ops (config_manager_init s0).1 ops).cm_config.notify_rate_hz ≠ 0 ∧
    (sensor_thread_period_ms
      (store_ops (config_manager_init s0).1 ops).cm_config.notify_rate_hz).isSome = true ∧
    (sensor_thread_iter (store_ops (config_manager_init s0).1 ops) none).isSome = true := by
  have hv := store_ops_store_valid ops _ (config_manager_init_store_valid s0)
  obtain ⟨h1, h2, h3, h4⟩ := hv
  have hp : (sensor_thread_period_ms
      (store_ops (config_manager_init s0).1 ops).cm_config.notify_rate_hz).isSome = true := by
    unfold sensor_thread_period_ms
    rw [if_neg (by omega)]
    rfl
  refine ⟨by simp [config_manager_get], h1, h2, h3, h4, by omega, hp, ?_⟩
  unfold sensor_thread_iter
  simp only [config_manager_get, Bool.false_eq_true, if_false]
  obtain ⟨p, hp1⟩ := Option.isSome_iff_exists.mp hp
  rw [hp1]
  rfl

end Hopla
